import Mathlib

/-!
Verification of the triple-stage validation engine in
`src/validation/comprehensive_validator.py`.

The engine's data values are JSON-like Python values; records are
string-keyed dicts.  Machine floats are modelled as exact rationals
(all constants in the source are small decimals), Python `datetime.now()`
is modelled as an explicit `now : Nat` parameter threaded to the places
the source reads the clock, and the environment-variable credential read
in `ExternalVerifier.__init__` is modelled as a boolean configuration
field.  Python exceptions (the `TypeError` that `len()` raises on an
`int`) are modelled with `Except String`.
-/

/-- A Python/JSON-like value as handled by the validator: `None`, booleans,
numbers (`int`/`float`, modelled exactly as rationals; Python `bool` is kept
separate but counts as numeric for `isinstance(x, (int, float))`, mirroring
`bool` subclassing `int`), strings, lists and string-keyed dicts. -/
inductive Value where
  | null : Value
  | bool (b : Bool) : Value
  | num (q : ℚ) : Value
  | str (s : String) : Value
  | list (xs : List Value) : Value
  | dict (fields : List (String × Value)) : Value

/-- Python truthiness `bool(x)` for the values above: `None`, `False`, zero,
and empty containers/strings are falsy. -/
def Value.truthy : Value → Bool
  | .null => false
  | .bool b => b
  | .num q => decide (q ≠ 0)
  | .str s => !s.isEmpty
  | .list xs => !xs.isEmpty
  | .dict fs => !fs.isEmpty

/-- Python `len(x)` for sized values; `none` when `len` would raise
`TypeError` (numbers, booleans, `None`). -/
def Value.pyLen : Value → Option Nat
  | .str s => some s.length
  | .list xs => some xs.length
  | .dict fs => some fs.length
  | _ => none

/-- `isinstance(x, (int, float))` together with the numeric value: Python
`bool` is a subclass of `int`, so `True`/`False` count as `1`/`0`. -/
def Value.pyNum : Value → Option ℚ
  | .num q => some q
  | .bool b => some (if b then 1 else 0)
  | _ => none

/-- `x is None`. -/
def Value.isNull : Value → Bool
  | .null => true
  | _ => false

/-- Python `x == ''`: true exactly for the empty string (comparing a
non-string to `''` is `False`, never an error). -/
def Value.isEmptyStr : Value → Bool
  | .str s => s.isEmpty
  | _ => false

/-- `isinstance(x, dict)`. -/
def Value.isDict : Value → Bool
  | .dict _ => true
  | _ => false

/-- `type(x).__name__` as used in Stage 1's error message (ints and floats
are conflated by the `num` constructor; the message text is not load-bearing). -/
def Value.typeName : Value → String
  | .null => "NoneType"
  | .bool _ => "bool"
  | .num _ => "float"
  | .str _ => "str"
  | .list _ => "list"
  | .dict _ => "dict"

/-- First-match lookup in a record's fields; Python dicts have unique keys,
so first-match agrees with dict lookup on every value the source can build. -/
def lookupField (fields : List (String × Value)) (key : String) : Option Value :=
  match fields with
  | [] => none
  | (k, v) :: rest => if k = key then some v else lookupField rest key

/-- `items = data if isinstance(data, list) else [data]`, the list/scalar
normalization used by all three stages. -/
def toItems : Value → List Value
  | .list xs => xs
  | v => [v]

/-- Validation result status (`ValidationStatus`). -/
inductive ValidationStatus where
  | passed
  | failed
  | warning
  | pending
  deriving DecidableEq, Repr

/-- Validation strictness level (`ValidationLevel`). -/
inductive ValidationLevel where
  | strict
  | standard
  | relaxed
  deriving DecidableEq, Repr

/-- A structured detail value as actually stored by the three stages
(`details` holds only counters and a schema-type string). -/
inductive Detail where
  | num (n : Nat)
  | str (s : String)
  deriving DecidableEq, Repr

/-- Result of one validation step (`ValidationResult`): statuses, a score and
a confidence in `[0,1]`, error/warning strings, a detail map, and the
creation time (`datetime.now()` modelled as the `now` parameter). -/
structure ValidationResult where
  step : String
  status : ValidationStatus
  score : ℚ
  confidence : ℚ
  errors : List String
  warnings : List String
  details : List (String × Detail)
  timestamp : Nat
  deriving DecidableEq, Repr

/-- One entry of `SchemaValidator.SCHEMAS`: required and optional fields. -/
structure SchemaDef where
  required : List String
  optional : List String
  deriving DecidableEq, Repr

/-- The `'lead'` schema. -/
def leadSchema : SchemaDef :=
  { required := ["id", "source_url", "scraped_at"],
    optional := ["address", "price", "property_type", "status", "owner_name"] }

/-- `SchemaValidator.SCHEMAS`, the static registry. -/
def SCHEMAS : List (String × SchemaDef) :=
  [("lead", leadSchema),
   ("property",
    { required := ["id", "address", "property_type"],
      optional := ["list_price", "estimated_value", "roi_percent", "county", "state"] }),
   ("intelligence",
    { required := ["id", "type", "source", "timestamp"],
      optional := ["confidence", "data", "metadata"] }),
   ("repository",
    { required := ["name", "full_name"],
      optional := ["description", "language", "stars", "forks"] })]

/-- First-match lookup in the schema registry. -/
def lookupSchema (l : List (String × SchemaDef)) (key : String) : Option SchemaDef :=
  match l with
  | [] => none
  | (k, v) :: rest => if k = key then some v else lookupSchema rest key

/-- `self.schema = self.SCHEMAS.get(data_type, self.SCHEMAS['lead'])`
from `SchemaValidator.__init__`. -/
def schemaFor (data_type : String) : SchemaDef :=
  (lookupSchema SCHEMAS data_type).getD leadSchema

/-- Whether one required field is missing or empty in a record, the condition
tested by the loop body of `SchemaValidator._validate_item`:
`field not in item`, `item[field] is None`, `item[field] == ''`. -/
def fieldBad (fields : List (String × Value)) (f : String) : Bool :=
  match lookupField fields f with
  | none => true
  | some v => v.isNull || v.isEmptyStr

/-- The loop body of `SchemaValidator._validate_item` for one required field:
`none` when the field is present and non-empty, otherwise the error message
the source appends (`field not in item` / `is None or == ''`). -/
def fieldError (fields : List (String × Value)) (path : String) (f : String) : Option String :=
  match lookupField fields f with
  | none => some (path ++ ": Missing required field " ++ f)
  | some v =>
      if v.isNull || v.isEmptyStr then
        some (path ++ ": Required field " ++ f ++ " is empty")
      else none

/-- `SchemaValidator._validate_item`: a non-dict item yields one descriptive
error; otherwise one error per missing/empty required field, in schema order
(the loop appends one message per bad field, which is this `filterMap`). -/
def SchemaValidator.validate_item (schema : SchemaDef) (item : Value) (path : String) : List String :=
  match item with
  | .dict fields => schema.required.filterMap (fieldError fields path)
  | _ => [path ++ ": Expected dict, got " ++ item.typeName]

/-- An item "counts as validated" when `_validate_item` produces no errors;
the path string never affects that (proved below). -/
def errorFree (schema : SchemaDef) (item : Value) : Bool :=
  (SchemaValidator.validate_item schema item "").isEmpty

/-- The accumulation loop of `SchemaValidator.validate`: walks the items with
their indices and returns `(errors, validated_count, total_count)`.  The
source accumulates left-to-right with a mutable triple; this right fold
produces the same error list (item `i`'s errors precede item `i+1`'s) and the
same counters. -/
def schemaScan (schema : SchemaDef) (i : Nat) : List Value → (List String × Nat × Nat)
  | [] => ([], 0, 0)
  | item :: rest =>
      if (SchemaValidator.validate_item schema item ("item[" ++ toString i ++ "]")).isEmpty then
        ((schemaScan schema (i + 1) rest).1,
         (schemaScan schema (i + 1) rest).2.1 + 1,
         (schemaScan schema (i + 1) rest).2.2 + 1)
      else
        (SchemaValidator.validate_item schema item ("item[" ++ toString i ++ "]") ++
           (schemaScan schema (i + 1) rest).1,
         (schemaScan schema (i + 1) rest).2.1,
         (schemaScan schema (i + 1) rest).2.2 + 1)

/-- `SchemaValidator.validate` (Stage 1): scores structure/completeness
against the schema selected from `data_type`. -/
def SchemaValidator.validate (data_type : String) (now : Nat) (data : Value) : ValidationResult :=
  let schema := schemaFor data_type
  let items := toItems data
  let scan := schemaScan schema 0 items
  let errors := scan.1
  let validated_count := scan.2.1
  let total_count := scan.2.2
  let score : ℚ := if total_count > 0 then (validated_count : ℚ) / (total_count : ℚ) else 0
  let confidence : ℚ := max 0 (min 1 (1 - (errors.length : ℚ) * 0.1))
  { step := "Schema Validation",
    status := if errors.isEmpty then .passed else .failed,
    score := score,
    confidence := confidence,
    errors := errors,
    warnings := [],
    details := [("total_items", .num total_count),
                ("validated_items", .num validated_count),
                ("schema_type", .str data_type)],
    timestamp := now }

/-- `CrossReferenceValidator._validate_id_format`:
`bool(id_value) and len(id_value) >= 1 and len(id_value) <= 256`.
A falsy value short-circuits to `False` before `len` is reached; a truthy
value without `len` (an `int`, `float` or `True`) raises `TypeError`. -/
def CrossReferenceValidator.validate_id_format (id_value : Value) : Except String Bool :=
  if !id_value.truthy then .ok false
  else
    match id_value.pyLen with
    | some n => .ok (decide (1 ≤ n) && decide (n ≤ 256))
    | none => .error "TypeError: object has no len()"

/-- The id check of the Stage 2 loop:
`item_id = item.get('id', ''); if item_id and self._validate_id_format(item_id)`.
Returns whether the check counted a match. -/
def idCheckPasses (fields : List (String × Value)) : Except String Bool :=
  let item_id := (lookupField fields "id").getD (Value.str "")
  if item_id.truthy then CrossReferenceValidator.validate_id_format item_id
  else .ok false

/-- `CrossReferenceValidator._check_internal_consistency`: when `price` and
`estimated_value` are both present, truthy and numeric, their ratio must lie
in `[0.1, 10]`; any other shape passes.  (The `estimated != 0` guard of the
source is kept although truthiness already rules the zero case out.) -/
def check_internal_consistency (fields : List (String × Value)) : Bool :=
  match lookupField fields "price", lookupField fields "estimated_value" with
  | some price, some estimated =>
      if price.truthy && estimated.truthy then
        match price.pyNum, estimated.pyNum with
        | some p, some e =>
            let ratio : ℚ := if e ≠ 0 then p / e else 0
            if ratio < 0.1 || ratio > 10 then false else true
        | _, _ => true
      else true
  | _, _ => true

/-- One iteration of the Stage 2 loop: the `(matches, mismatches)` increments
contributed by one item (non-dict items contribute nothing). -/
def crossRefItemCounts (item : Value) : Except String (Nat × Nat) :=
  match item with
  | .dict fields =>
      match idCheckPasses fields with
      | .error e => .error e
      | .ok idOk =>
          let idPair : Nat × Nat := if idOk then (1, 0) else (0, 1)
          let consPair : Nat × Nat := if check_internal_consistency fields then (1, 0) else (0, 1)
          .ok (idPair.1 + consPair.1, idPair.2 + consPair.2)
  | _ => .ok (0, 0)

/-- The Stage 2 loop over all items; the first raised `TypeError` propagates,
as in the source. -/
def crossRefCounts : List Value → Except String (Nat × Nat)
  | [] => .ok (0, 0)
  | item :: rest =>
      match crossRefItemCounts item with
      | .error e => .error e
      | .ok c =>
          match crossRefCounts rest with
          | .error e => .error e
          | .ok cs => .ok (c.1 + cs.1, c.2 + cs.2)

/-- `CrossReferenceValidator.validate` (Stage 2). -/
def CrossReferenceValidator.validate (now : Nat) (data : Value) : Except String ValidationResult :=
  match crossRefCounts (toItems data) with
  | .error e => .error e
  | .ok counts =>
      let matchCount := counts.1
      let mismatchCount := counts.2
      let total := matchCount + mismatchCount
      let score : ℚ := if total > 0 then (matchCount : ℚ) / (total : ℚ) else 1
      let status : ValidationStatus :=
        if mismatchCount = 0 then .passed
        else if score ≥ 0.8 then .warning else .failed
      .ok { step := "Cross-Reference Validation",
            status := status,
            score := score,
            confidence := score,
            errors := [],
            warnings := [],
            details := [("matches", .num matchCount),
                        ("mismatches", .num mismatchCount),
                        ("total_checks", .num total)],
            timestamp := now }

/-- Whether `pat` occurs at the start of `l` (Python `startswith` on chars). -/
def charsStartWith : List Char → List Char → Bool
  | [], _ => true
  | _ :: _, [] => false
  | p :: ps, c :: cs => p == c && charsStartWith ps cs

/-- Whether `pat` occurs contiguously inside `l` (Python `pat in s`). -/
def charsContain (pat : List Char) : List Char → Bool
  | [] => charsStartWith pat []
  | c :: rest => charsStartWith pat (c :: rest) || charsContain pat rest

/-- Python substring test `pat in s`. -/
def strContains (s pat : String) : Bool :=
  charsContain pat.data s.data

/-- The placeholder markers scanned for by `ExternalVerifier._is_reasonable_data`. -/
def placeholderTokens : List String :=
  ["test", "dummy", "fake", "xxx", "placeholder"]

/-- Whether one dict value survives the content-plausibility scan: a string
value must not contain, lower-cased, any placeholder token. -/
def valueReasonable (v : Value) : Bool :=
  match v with
  | .str s => !(placeholderTokens.any (fun tok => strContains s.toLower tok))
  | _ => true

/-- `ExternalVerifier._is_reasonable_data`: every string value of the record
must be free of placeholder tokens. -/
def is_reasonable_data (fields : List (String × Value)) : Bool :=
  fields.all (fun kv => valueReasonable kv.2)

/-- An item counted valid by the Stage 3 data-pattern scan:
`isinstance(item, dict) and self._is_reasonable_data(item)`. -/
def reasonableItem : Value → Bool
  | .dict fields => is_reasonable_data fields
  | _ => false

/-- The Stage 3 data-pattern check: `valid_items / len(items)` (or 0 for an
empty item list, as in the source's `if items else 0`) compared against the
0.9 threshold. -/
def stage3PatternsPass (data : Value) : Bool :=
  let items := toItems data
  let ratio : ℚ :=
    if !items.isEmpty then ((items.countP reasonableItem : ℚ) / (items.length : ℚ)) else 0
  decide (ratio ≥ 0.9)

/-- `ExternalVerifier.validate` (Stage 3): one credential-presence check and
one content-plausibility check, each contributing one pass/fail unit.
`gemini_api_key` presence is the `geminiKeyPresent` configuration bit. -/
def ExternalVerifier.validate (geminiKeyPresent : Bool) (now : Nat) (data : Value) : ValidationResult :=
  let items := toItems data
  let valid_items := items.countP reasonableItem
  let patternsOk := stage3PatternsPass data
  let verifications : List (Bool × String × String) :=
    [(geminiKeyPresent, "Gemini API",
      if geminiKeyPresent then "API key present" else "API key not configured"),
     (patternsOk, "Data Patterns",
      if patternsOk then toString valid_items ++ "/" ++ toString items.length ++ " items valid"
      else "Only " ++ toString valid_items ++ "/" ++ toString items.length ++ " items valid")]
  let passed := verifications.countP (fun v => v.1)
  let total := verifications.length
  let score : ℚ := if total > 0 then (passed : ℚ) / (total : ℚ) else 0
  let status : ValidationStatus :=
    if passed = total then .passed
    else if score ≥ 0.5 then .warning else .failed
  { step := "External Verification",
    status := status,
    score := score,
    confidence := score * 0.9,
    errors := verifications.filterMap (fun v => if v.1 then none else some v.2.2),
    warnings := [],
    details := [("verified", .num passed), ("total", .num total)],
    timestamp := now }

/-- `TripleValidationReport`: the three optional stage results plus the
derived overall fields.  `start_time`/`end_time` model the two
`datetime.now()` reads. -/
structure TripleValidationReport where
  validation_id : String
  data_type : String
  level : ValidationLevel
  step1_result : Option ValidationResult := none
  step2_result : Option ValidationResult := none
  step3_result : Option ValidationResult := none
  overall_status : ValidationStatus := .pending
  overall_score : ℚ := 0
  overall_confidence : ℚ := 0
  start_time : Nat
  end_time : Option Nat := none
  deriving DecidableEq, Repr

/-- `TripleValidationReport.calculate_overall`: weighted 0.40/0.35/0.25
aggregation of the present stage results (weights indexed positionally, the
last weight reused past the end, exactly as `weights[i] if i < len(weights)
else weights[-1]`), then the PASSED/FAILED/WARNING precedence rule. -/
def TripleValidationReport.calculate_overall (rep : TripleValidationReport) (now : Nat) : TripleValidationReport :=
  let results := [rep.step1_result, rep.step2_result, rep.step3_result].filterMap id
  if results.isEmpty then rep
  else
    let weights : List ℚ := [0.4, 0.35, 0.25]
    let total_score := results.enum.foldl
      (fun acc p => acc + p.2.score * weights.getD p.1 0.25) 0
    let total_confidence := results.enum.foldl
      (fun acc p => acc + p.2.confidence * weights.getD p.1 0.25) 0
    let all_passed := results.all (fun r => r.status = ValidationStatus.passed)
    let any_failed := results.any (fun r => r.status = ValidationStatus.failed)
    { rep with
      overall_score := total_score,
      overall_confidence := total_confidence,
      overall_status :=
        if all_passed then .passed
        else if any_failed then .failed
        else .warning,
      end_time := some now }

/-- Stand-in for the 8-hex-digit truncated MD5 of `json.dumps(data,
sort_keys=True, default=str)` in `_generate_validation_id`.  MD5 and
`json.dumps` are library primitives outside this repository; every claim is
independent of the hash's concrete value, only its determinism in the record
content matters, so a deterministic stand-in derived from the value suffices. -/
def contentHash (data : Value) : String :=
  match data with
  | .null => "null"
  | .bool b => toString b
  | .num q => toString q
  | .str s => s
  | .list xs => "list" ++ toString xs.length
  | .dict fs => "dict" ++ String.intercalate "," (fs.map (fun kv => kv.1))

/-- `ComprehensiveValidator._generate_validation_id`:
`"val_<timestamp>_<content hash>"`. -/
def generate_validation_id (now : Nat) (data : Value) : String :=
  "val_" ++ toString now ++ "_" ++ contentHash data

/-- The configuration of `ComprehensiveValidator`: strictness level, data
type, and the Stage 3 credential presence read from the environment at
construction (`GCP_SA_KEY` is also stored by the source but never read). -/
structure ComprehensiveValidator where
  level : ValidationLevel
  data_type : String
  geminiKeyPresent : Bool

/-- `ComprehensiveValidator.validate`: run the three stages in order,
assemble the report, compute the overall metrics.  A Python exception inside
a stage (only Stage 2 can raise) propagates out, as in the source, which has
no handler. -/
def ComprehensiveValidator.validate (cfg : ComprehensiveValidator) (now : Nat) (data : Value) :
    Except String TripleValidationReport :=
  let r1 := SchemaValidator.validate cfg.data_type now data
  match CrossReferenceValidator.validate now data with
  | .error e => .error e
  | .ok r2 =>
      let r3 := ExternalVerifier.validate cfg.geminiKeyPresent now data
      let report : TripleValidationReport :=
        { validation_id := generate_validation_id now data,
          data_type := cfg.data_type,
          level := cfg.level,
          step1_result := some r1,
          step2_result := some r2,
          step3_result := some r3,
          start_time := now }
      .ok (report.calculate_overall now)

/-- `ComprehensiveValidator.validate_batch`: `asyncio.gather` over one task
per item — results are delivered in input order, and the first task exception
propagates out of the gather, losing every sibling result. -/
def ComprehensiveValidator.validate_batch (cfg : ComprehensiveValidator) (now : Nat) :
    List Value → Except String (List TripleValidationReport)
  | [] => .ok []
  | item :: rest =>
      match cfg.validate now item with
      | .error e => .error e
      | .ok r =>
          match ComprehensiveValidator.validate_batch cfg now rest with
          | .error e => .error e
          | .ok rs => .ok (r :: rs)

/-- The summary dict built by `validate_all_intelligence`. -/
structure BatchSummary where
  total : Nat
  passed : Nat
  failed : Nat
  pass_rate : ℚ
  reports : List TripleValidationReport
  deriving DecidableEq, Repr

/-- `validate_all_intelligence`: batch-validate with a STRICT validator of
default data type `'lead'` and fold the reports into a summary. -/
def validate_all_intelligence (geminiKeyPresent : Bool) (now : Nat) (data_list : List Value) :
    Except String BatchSummary :=
  let validator : ComprehensiveValidator :=
    { level := .strict, data_type := "lead", geminiKeyPresent := geminiKeyPresent }
  match validator.validate_batch now data_list with
  | .error e => .error e
  | .ok reports =>
      let passed := reports.countP (fun r => r.overall_status = ValidationStatus.passed)
      let failed := reports.countP (fun r => r.overall_status = ValidationStatus.failed)
      .ok { total := reports.length,
            passed := passed,
            failed := failed,
            pass_rate := if !reports.isEmpty then (passed : ℚ) / (reports.length : ℚ) else 0,
            reports := reports }

/-- The mismatch predicate claimed by the spec for the Stage 2 id check,
written from the claim's words for comparison with the source's
`idCheckPasses`: a mismatch exactly when the `id` field is present and
empty or longer than 256 characters. -/
def specIdMismatch (fields : List (String × Value)) : Bool :=
  match lookupField fields "id" with
  | none => false
  | some (.str s) => s.isEmpty || decide (s.length > 256)
  | some _ => false

/-- The mismatch predicate claimed by the spec for the Stage 2 numeric
consistency check, written from the claim's words: a mismatch exactly when
both fields are present and numeric and the ratio lies outside `[0.1, 10]`. -/
def specConsistencyMismatch (fields : List (String × Value)) : Bool :=
  match (lookupField fields "price").bind Value.pyNum,
        (lookupField fields "estimated_value").bind Value.pyNum with
  | some p, some e =>
      let ratio : ℚ := p / e
      ratio < 0.1 || ratio > 10
  | _, _ => false


/-- Number of bad required fields of an item (one for a non-dict item);
`_validate_item` emits exactly this many error messages. -/
def badFieldCount (schema : SchemaDef) (item : Value) : Nat :=
  match item with
  | .dict fields => schema.required.countP (fieldBad fields)
  | _ => 1

/-- A fully valid lead record, as in the module's own `main()` test data. -/
def sampleLead : Value :=
  .dict [("id", .str "lead_001"),
         ("source_url", .str "https://example.com/property/1"),
         ("scraped_at", .str "2026-01-11T00:00:00Z"),
         ("address", .str "123 Main St"),
         ("price", .num 250000)]

/-- A second valid lead record. -/
def sampleLead2 : Value :=
  .dict [("id", .str "lead_002"),
         ("source_url", .str "https://example.com/property/2"),
         ("scraped_at", .str "2026-01-12T00:00:00Z")]

/-- A record whose `id` is an integer: truthy, so Stage 2 reaches
`len(id_value)`, which raises `TypeError` on an `int`. -/
def intIdLead : Value :=
  .dict [("id", .num 5),
         ("source_url", .str "https://example.com/property/3"),
         ("scraped_at", .str "2026-01-11T00:00:00Z")]

/-- The STRICT lead validator used by the concrete instances below. -/
def strictLeadValidator : ComprehensiveValidator :=
  { level := .strict, data_type := "lead", geminiKeyPresent := true }

/-- A stage result literal used to build concrete reports. -/
def sampleStep (st : ValidationStatus) (sc : ℚ) : ValidationResult :=
  { step := "s", status := st, score := sc, confidence := sc,
    errors := [], warnings := [], details := [], timestamp := 0 }

/-- A concrete report with all three stage results present (one passed, one
warning, one failed). -/
def mixedReport : TripleValidationReport :=
  { validation_id := "v", data_type := "lead", level := .strict,
    step1_result := some (sampleStep .passed 1),
    step2_result := some (sampleStep .warning (1/2)),
    step3_result := some (sampleStep .failed (1/4)),
    start_time := 0 }

/-- A second concrete report with all three stage results present. -/
def passedReport : TripleValidationReport :=
  { validation_id := "w", data_type := "lead", level := .strict,
    step1_result := some (sampleStep .passed 1),
    step2_result := some (sampleStep .passed (3/4)),
    step3_result := some (sampleStep .passed (1/2)),
    start_time := 0 }

/-- Fallback report for the total extraction of a known-successful run. -/
def dummyReport : TripleValidationReport :=
  { validation_id := "", data_type := "", level := .strict, start_time := 0 }

/-- Fallback summary for the total extraction of a known-successful run. -/
def dummySummary : BatchSummary :=
  { total := 0, passed := 0, failed := 0, pass_rate := 0, reports := [] }

/-- The report of validating `sampleLead` at time 0. -/
def sampleReportAt0 : TripleValidationReport :=
  match strictLeadValidator.validate 0 sampleLead with
  | .ok r => r
  | .error _ => dummyReport

/-- The report of validating `sampleLead` at time 1. -/
def sampleReportAt1 : TripleValidationReport :=
  match strictLeadValidator.validate 1 sampleLead with
  | .ok r => r
  | .error _ => dummyReport

/-- The input list for the concrete batch run. -/
def batchInputs : List Value := [sampleLead, sampleLead2]

/-- The summary of the concrete batch run. -/
def batchSummaryAt0 : BatchSummary :=
  match validate_all_intelligence true 0 batchInputs with
  | .ok s => s
  | .error _ => dummySummary

theorem isEmpty_eq_decide {α : Type} (l : List α) : l.isEmpty = decide (l.length = 0) := by
  cases l <;> simp

theorem isEmpty_true_iff {α : Type} (l : List α) : l.isEmpty = true ↔ l = [] := by
  cases l <;> simp

theorem length_validate_item_dict (schema : SchemaDef) (fields : List (String × Value)) (p : String) :
    (SchemaValidator.validate_item schema (.dict fields) p).length =
      schema.required.countP (fieldBad fields) := by
  simp only [SchemaValidator.validate_item]
  induction schema.required with
  | nil => rfl
  | cons f rest ih =>
      simp only [List.filterMap_cons, List.countP_cons]
      cases h : lookupField fields f with
      | none => simp [fieldError, fieldBad, h, ih]
      | some v =>
          by_cases hv : (v.isNull || v.isEmptyStr) = true <;>
            simp [fieldError, fieldBad, h, hv, ih]

theorem length_validate_item (schema : SchemaDef) (item : Value) (p : String) :
    (SchemaValidator.validate_item schema item p).length = badFieldCount schema item := by
  cases item with
  | dict fields => simpa [badFieldCount] using length_validate_item_dict schema fields p
  | null => rfl
  | bool b => rfl
  | num q => rfl
  | str s => rfl
  | list xs => rfl

theorem isEmpty_validate_item (schema : SchemaDef) (item : Value) (p : String) :
    (SchemaValidator.validate_item schema item p).isEmpty = errorFree schema item := by
  rw [errorFree, isEmpty_eq_decide, isEmpty_eq_decide,
      length_validate_item schema item p, length_validate_item schema item ""]

theorem schemaScan_total (schema : SchemaDef) (l : List Value) :
    ∀ i : Nat, (schemaScan schema i l).2.2 = l.length := by
  induction l with
  | nil => intro i; rfl
  | cons item rest ih =>
      intro i
      simp only [schemaScan, List.length_cons]
      by_cases h :
          (SchemaValidator.validate_item schema item ("item[" ++ toString i ++ "]")).isEmpty = true <;>
        simp [h, ih]

theorem schemaScan_validated (schema : SchemaDef) (l : List Value) :
    ∀ i : Nat, (schemaScan schema i l).2.1 = l.countP (errorFree schema) := by
  induction l with
  | nil => intro i; rfl
  | cons item rest ih =>
      intro i
      simp only [schemaScan, List.countP_cons]
      rw [isEmpty_validate_item]
      by_cases h : errorFree schema item = true <;> simp [h, ih]

/-- C4: for every Stage 1 input (one record or a list of records), the result
has `score = validatedItems / totalItems` (an item counts as validated iff it
produced zero errors), `confidence = clamp(1 - 0.1 * errorCount, 0, 1)`, and
status PASSED iff the error list is empty, FAILED otherwise; Stage 1 never
returns WARNING.  (For the empty list both the source's `else 0.0` branch and
the rational `0 / 0 = 0` give score 0.) -/
theorem C4_stage1_output (data_type : String) (now : Nat) (data : Value) :
    (SchemaValidator.validate data_type now data).score =
      (((toItems data).countP (errorFree (schemaFor data_type)) : ℚ) /
        ((toItems data).length : ℚ)) ∧
    (SchemaValidator.validate data_type now data).confidence =
      max 0 (min 1 (1 - ((SchemaValidator.validate data_type now data).errors.length : ℚ) * 0.1)) ∧
    ((SchemaValidator.validate data_type now data).status = ValidationStatus.passed ↔
      (SchemaValidator.validate data_type now data).errors = []) ∧
    ((SchemaValidator.validate data_type now data).status = ValidationStatus.failed ↔
      (SchemaValidator.validate data_type now data).errors ≠ []) ∧
    (SchemaValidator.validate data_type now data).status ≠ ValidationStatus.warning := by
  simp only [SchemaValidator.validate]
  refine ⟨?_, trivial, ?_, ?_, ?_⟩
  · rw [schemaScan_total (schemaFor data_type) (toItems data) 0,
        schemaScan_validated (schemaFor data_type) (toItems data) 0]
    rcases Nat.eq_zero_or_pos (toItems data).length with h | h
    · rw [List.length_eq_zero] at h
      simp [h]
    · rw [if_pos h]
  · by_cases he : (schemaScan (schemaFor data_type) 0 (toItems data)).1.isEmpty = true
    · simp [he, (isEmpty_true_iff _).mp he]
    · rw [isEmpty_true_iff] at he
      simp [isEmpty_true_iff, he]
  · by_cases he : (schemaScan (schemaFor data_type) 0 (toItems data)).1.isEmpty = true
    · simp [he, (isEmpty_true_iff _).mp he]
    · rw [isEmpty_true_iff] at he
      simp [isEmpty_true_iff, he]
  · by_cases he : (schemaScan (schemaFor data_type) 0 (toItems data)).1.isEmpty = true <;>
      simp [he]

theorem calculate_overall_three (rep : TripleValidationReport) (now : Nat)
    (r1 r2 r3 : ValidationResult)
    (h1 : rep.step1_result = some r1) (h2 : rep.step2_result = some r2)
    (h3 : rep.step3_result = some r3) :
    (rep.calculate_overall now).overall_score =
        0.4 * r1.score + 0.35 * r2.score + 0.25 * r3.score ∧
    (rep.calculate_overall now).overall_confidence =
        0.4 * r1.confidence + 0.35 * r2.confidence + 0.25 * r3.confidence ∧
    (rep.calculate_overall now).overall_status =
        (if r1.status = ValidationStatus.passed ∧ r2.status = ValidationStatus.passed ∧
            r3.status = ValidationStatus.passed then ValidationStatus.passed
         else if r1.status = ValidationStatus.failed ∨ r2.status = ValidationStatus.failed ∨
            r3.status = ValidationStatus.failed then ValidationStatus.failed
         else ValidationStatus.warning) := by
  simp only [TripleValidationReport.calculate_overall, h1, h2, h3, List.filterMap,
    id, List.isEmpty, List.enum, List.enumFrom, List.foldl, List.getD, List.get?, Option.getD,
    List.all, List.any, Bool.false_eq_true, if_false]
  refine ⟨by ring, by ring, ?_⟩
  cases hs1 : r1.status <;> cases hs2 : r2.status <;> cases hs3 : r3.status <;> simp

/-- C1: for every report in which all three stage results are present, the
overall status is PASSED iff all three stage statuses are PASSED, FAILED iff
at least one stage status is FAILED, and WARNING otherwise. -/
theorem C1_overall_status (rep : TripleValidationReport) (now : Nat)
    (r1 r2 r3 : ValidationResult)
    (h1 : rep.step1_result = some r1) (h2 : rep.step2_result = some r2)
    (h3 : rep.step3_result = some r3) :
    ((rep.calculate_overall now).overall_status = ValidationStatus.passed ↔
      (r1.status = ValidationStatus.passed ∧ r2.status = ValidationStatus.passed ∧
       r3.status = ValidationStatus.passed)) ∧
    ((rep.calculate_overall now).overall_status = ValidationStatus.failed ↔
      (r1.status = ValidationStatus.failed ∨ r2.status = ValidationStatus.failed ∨
       r3.status = ValidationStatus.failed)) ∧
    ((rep.calculate_overall now).overall_status = ValidationStatus.warning ↔
      (¬(r1.status = ValidationStatus.passed ∧ r2.status = ValidationStatus.passed ∧
         r3.status = ValidationStatus.passed) ∧
       ¬(r1.status = ValidationStatus.failed ∨ r2.status = ValidationStatus.failed ∨
         r3.status = ValidationStatus.failed))) := by
  obtain ⟨-, -, hst⟩ := calculate_overall_three rep now r1 r2 r3 h1 h2 h3
  rw [hst]
  cases hs1 : r1.status <;> cases hs2 : r2.status <;> cases hs3 : r3.status <;> simp

/-- Witness for C1 at a concrete report (stage statuses PASSED, WARNING,
FAILED, so the overall status is FAILED). -/
theorem C1_witness :
    mixedReport.step1_result = some (sampleStep .passed 1) ∧
    mixedReport.step2_result = some (sampleStep .warning (1/2)) ∧
    mixedReport.step3_result = some (sampleStep .failed (1/4)) ∧
    (((mixedReport.calculate_overall 0).overall_status = ValidationStatus.passed ↔
      ((sampleStep .passed 1).status = ValidationStatus.passed ∧
       (sampleStep .warning (1/2)).status = ValidationStatus.passed ∧
       (sampleStep .failed (1/4)).status = ValidationStatus.passed)) ∧
    (((mixedReport.calculate_overall 0).overall_status = ValidationStatus.failed ↔
      ((sampleStep .passed 1).status = ValidationStatus.failed ∨
       (sampleStep .warning (1/2)).status = ValidationStatus.failed ∨
       (sampleStep .failed (1/4)).status = ValidationStatus.failed))) ∧
    ((mixedReport.calculate_overall 0).overall_status = ValidationStatus.warning ↔
      (¬((sampleStep .passed 1).status = ValidationStatus.passed ∧
         (sampleStep .warning (1/2)).status = ValidationStatus.passed ∧
         (sampleStep .failed (1/4)).status = ValidationStatus.passed) ∧
       ¬((sampleStep .passed 1).status = ValidationStatus.failed ∨
         (sampleStep .warning (1/2)).status = ValidationStatus.failed ∨
         (sampleStep .failed (1/4)).status = ValidationStatus.failed)))) :=
  ⟨rfl, rfl, rfl, C1_overall_status mixedReport 0 _ _ _ rfl rfl rfl⟩

/-- C2: for every report in which all three stage results are present, the
overall score is `0.40*score1 + 0.35*score2 + 0.25*score3` and the overall
confidence is the same weighting of the stage confidences (exact in ℚ, hence
within any floating tolerance). -/
theorem C2_overall_weights (rep : TripleValidationReport) (now : Nat)
    (r1 r2 r3 : ValidationResult)
    (h1 : rep.step1_result = some r1) (h2 : rep.step2_result = some r2)
    (h3 : rep.step3_result = some r3) :
    (rep.calculate_overall now).overall_score =
        0.4 * r1.score + 0.35 * r2.score + 0.25 * r3.score ∧
    (rep.calculate_overall now).overall_confidence =
        0.4 * r1.confidence + 0.35 * r2.confidence + 0.25 * r3.confidence :=
  ⟨(calculate_overall_three rep now r1 r2 r3 h1 h2 h3).1,
   (calculate_overall_three rep now r1 r2 r3 h1 h2 h3).2.1⟩

/-- Witness for C2 at a concrete report with stage scores 1, 3/4, 1/2. -/
theorem C2_witness :
    passedReport.step1_result = some (sampleStep .passed 1) ∧
    passedReport.step2_result = some (sampleStep .passed (3/4)) ∧
    passedReport.step3_result = some (sampleStep .passed (1/2)) ∧
    ((passedReport.calculate_overall 0).overall_score =
        0.4 * (sampleStep .passed 1).score + 0.35 * (sampleStep .passed (3/4)).score +
          0.25 * (sampleStep .passed (1/2)).score ∧
     (passedReport.calculate_overall 0).overall_confidence =
        0.4 * (sampleStep .passed 1).confidence + 0.35 * (sampleStep .passed (3/4)).confidence +
          0.25 * (sampleStep .passed (1/2)).confidence) :=
  ⟨rfl, rfl, rfl, C2_overall_weights passedReport 0 _ _ _ rfl rfl rfl⟩

/-- Whether an `Except` computation succeeded. -/
def exceptIsOk {ε α : Type} : Except ε α → Bool
  | .ok _ => true
  | .error _ => false

/-- C3 (refuting evaluation): a batch containing one record whose `id` is the
integer 5 makes Stage 2 reach `len(5)`, whose `TypeError` propagates
uncaught through `validate_batch`'s bare `asyncio.gather`: the whole batch
returns the exception and no report at all — although the sibling record on
its own validates fine.  The claim (one FAILED report for that record only,
siblings complete) describes the spec's stated propagation policy, which the
code does not implement. -/
theorem C3_batch_abort_on_exception :
    strictLeadValidator.validate_batch 0 [intIdLead, sampleLead] =
      Except.error "TypeError: object has no len()" ∧
    exceptIsOk (strictLeadValidator.validate_batch 0 [sampleLead]) = true :=
  ⟨rfl, rfl⟩

/-- C5 (counterexample): the record `{}` has no `id` field, yet the Stage 2
id check counts a mismatch for it (`item.get('id', '')` is falsy), while the
claim's predicate (mismatch only when `id` is present and empty/overlong)
reports no mismatch. -/
theorem C5_counterexample :
    idCheckPasses [] = Except.ok false ∧ specIdMismatch [] = false :=
  ⟨rfl, rfl⟩

/-- C5 (amended): for a record whose `id` field is absent or a string, the
Stage 2 id check counts a mismatch exactly when the `id` field is absent, or
present and empty, or present and longer than 256 characters. -/
theorem C5_amended_id_check (fields : List (String × Value))
    (h : lookupField fields "id" = none ∨ ∃ s, lookupField fields "id" = some (Value.str s)) :
    (idCheckPasses fields = Except.ok false ↔
      (lookupField fields "id" = none ∨
       lookupField fields "id" = some (Value.str "") ∨
       ∃ s, lookupField fields "id" = some (Value.str s) ∧ 256 < s.length)) := by
  rcases h with h | ⟨s, h⟩
  · have hid : idCheckPasses fields = Except.ok false := by
      have he : (Value.str "").truthy = false := by decide
      simp [idCheckPasses, h, he]
    rw [hid]
    simp [h]
  · by_cases hs : s = ""
    · subst hs
      have hid : idCheckPasses fields = Except.ok false := by
        have he : (Value.str "").truthy = false := by decide
        simp [idCheckPasses, h, he]
      rw [hid]
      simp [h]
    · have hlen0 : s.length ≠ 0 := by
        intro hc
        exact hs (String.ext (List.length_eq_zero.mp hc))
      have htr : (Value.str s).truthy = true := by
        have he : s.isEmpty = false := by
          rw [Bool.eq_false_iff]
          intro hc
          exact hs ((String.isEmpty_iff s).mp hc)
        simp [Value.truthy, he]
      have hid : idCheckPasses fields =
          Except.ok (decide (1 ≤ s.length) && decide (s.length ≤ 256)) := by
        simp [idCheckPasses, h, htr, CrossReferenceValidator.validate_id_format, Value.pyLen]
      rw [hid]
      have hrhs : (lookupField fields "id" = none ∨
          lookupField fields "id" = some (Value.str "") ∨
          ∃ t, lookupField fields "id" = some (Value.str t) ∧ 256 < t.length) ↔
          256 < s.length := by
        simp [h, hs]
      rw [hrhs]
      constructor
      · intro hok
        have hb := Except.ok.inj hok
        simp only [Bool.and_eq_false_iff, decide_eq_false_iff_not, not_le] at hb
        rcases hb with hb | hb <;> omega
      · intro hlt
        have hb : (decide (1 ≤ s.length) && decide (s.length ≤ 256)) = false := by
          simp only [Bool.and_eq_false_iff, decide_eq_false_iff_not, not_le]
          right
          omega
        rw [hb]

/-- Witness for the amended C5 at the concrete record with id `"x"` (present,
non-empty, short: no mismatch). -/
theorem C5_witness :
    (lookupField [("id", Value.str "x")] "id" = none ∨
      ∃ s, lookupField [("id", Value.str "x")] "id" = some (Value.str s)) ∧
    (idCheckPasses [("id", Value.str "x")] = Except.ok false ↔
      (lookupField [("id", Value.str "x")] "id" = none ∨
       lookupField [("id", Value.str "x")] "id" = some (Value.str "") ∨
       ∃ s, lookupField [("id", Value.str "x")] "id" = some (Value.str s) ∧ 256 < s.length)) :=
  ⟨Or.inr ⟨"x", rfl⟩, C5_amended_id_check _ (Or.inr ⟨"x", rfl⟩)⟩

theorem truthy_pyNum_ne_zero (v : Value) (q : ℚ)
    (ht : v.truthy = true) (hq : v.pyNum = some q) : q ≠ 0 := by
  cases v with
  | num q' =>
      simp only [Value.truthy, decide_eq_true_eq] at ht
      simp only [Value.pyNum, Option.some.injEq] at hq
      exact hq ▸ ht
  | bool b =>
      simp only [Value.truthy] at ht
      simp only [Value.pyNum, ht, if_true, Option.some.injEq] at hq
      rw [← hq]
      norm_num
  | null => simp [Value.pyNum] at hq
  | str s => simp [Value.pyNum] at hq
  | list xs => simp [Value.pyNum] at hq
  | dict fs => simp [Value.pyNum] at hq

/-- C6 (counterexample): the record `{price: 0, estimated_value: 100}` has
both fields present and numeric with ratio 0 (outside `[0.1, 10]`), yet the
source's consistency check passes it: `if price and estimated` short-circuits
on the falsy zero price, while the claim's predicate flags a mismatch. -/
theorem C6_counterexample :
    check_internal_consistency [("price", Value.num 0), ("estimated_value", Value.num 100)] = true ∧
    specConsistencyMismatch [("price", Value.num 0), ("estimated_value", Value.num 100)] = true := by
  constructor
  · rfl
  · unfold specConsistencyMismatch
    simp [lookupField, Value.pyNum]
    norm_num

/-- C6 (amended): the Stage 2 consistency check counts a mismatch exactly
when both a `price` and an `estimated_value` field are present, truthy
(non-zero), and numeric, and their ratio lies outside `[0.1, 10]`; a record
lacking either field, or holding a zero value in one of them, passes
vacuously. -/
theorem C6_amended_consistency (fields : List (String × Value)) :
    check_internal_consistency fields = false ↔
      ∃ pv ev p e, lookupField fields "price" = some pv ∧
        lookupField fields "estimated_value" = some ev ∧
        pv.truthy = true ∧ ev.truthy = true ∧
        pv.pyNum = some p ∧ ev.pyNum = some e ∧
        (p / e < 0.1 ∨ 10 < p / e) := by
  cases hp : lookupField fields "price" with
  | none => simp [check_internal_consistency, hp]
  | some pv =>
      cases he : lookupField fields "estimated_value" with
      | none => simp [check_internal_consistency, hp, he]
      | some ev =>
          by_cases htp : pv.truthy = true
          · by_cases hte : ev.truthy = true
            · simp only [check_internal_consistency, hp, he, htp, hte, Bool.and_self, if_true]
              cases hnp : pv.pyNum with
              | none => simp [hp, he, htp, hte, hnp]
              | some p =>
                  cases hne : ev.pyNum with
                  | none => simp [hp, he, htp, hte, hnp, hne]
                  | some e =>
                      have hez : e ≠ 0 := truthy_pyNum_ne_zero ev e hte hne
                      have hrhs : (∃ pv' ev' p' e',
                          some pv = some pv' ∧ some ev = some ev' ∧
                          pv'.truthy = true ∧ ev'.truthy = true ∧
                          pv'.pyNum = some p' ∧ ev'.pyNum = some e' ∧
                          (p' / e' < 0.1 ∨ 10 < p' / e')) ↔
                          (p / e < 0.1 ∨ 10 < p / e) := by
                        simp [htp, hte, hnp, hne]
                      rw [hrhs]
                      simp only [hnp, hne, hez, ne_eq, not_false_eq_true, if_true]
                      constructor
                      · intro hle
                        by_contra hc
                        push_neg at hc
                        obtain ⟨hc1, hc2⟩ := hc
                        rw [decide_eq_false (not_lt.mpr hc1),
                            decide_eq_false (not_lt.mpr hc2)] at hle
                        simp at hle
                      · intro hc
                        have hb : (decide (p / e < 0.1) || decide (p / e > 10)) = true := by
                          rcases hc with hc | hc <;> simp [hc]
                        rw [hb]
                        simp
            · rw [Bool.not_eq_true] at hte
              simp [check_internal_consistency, hp, he, hte]
          · rw [Bool.not_eq_true] at htp
            simp [check_internal_consistency, hp, he, htp]

theorem stage3PatternsPass_iff (data : Value) :
    stage3PatternsPass data = true ↔
      ((toItems data).countP reasonableItem : ℚ) / ((toItems data).length : ℚ) ≥ 0.9 := by
  unfold stage3PatternsPass
  by_cases h : (toItems data).isEmpty = true
  · rw [isEmpty_true_iff] at h
    rw [h]
    norm_num
  · simp only [h, Bool.not_false, if_true, decide_eq_true_eq]

theorem valueReasonable_false_iff (v : Value) :
    valueReasonable v = false ↔
      ∃ s, v = Value.str s ∧ ∃ tok ∈ placeholderTokens, strContains s.toLower tok = true := by
  cases v <;> simp [valueReasonable, List.any_eq_true]

theorem reasonableItem_dict_false_iff (fields : List (String × Value)) :
    reasonableItem (Value.dict fields) = false ↔
      ∃ k s, (k, Value.str s) ∈ fields ∧
        ∃ tok ∈ placeholderTokens, strContains s.toLower tok = true := by
  have hall : (fields.all fun kv => valueReasonable kv.2) = false ↔
      ∃ kv ∈ fields, valueReasonable kv.2 = false := by
    rw [Bool.eq_false_iff, Ne, List.all_eq_true]
    push_neg
    simp [Bool.not_eq_true]
  simp only [reasonableItem, is_reasonable_data]
  rw [hall]
  constructor
  · rintro ⟨⟨k, v⟩, hmem, hv⟩
    obtain ⟨s, rfl, htok⟩ := (valueReasonable_false_iff v).mp hv
    exact ⟨k, s, hmem, htok⟩
  · rintro ⟨k, s, hmem, tok, htokmem, hcont⟩
    exact ⟨(k, Value.str s), hmem,
      (valueReasonable_false_iff _).mpr ⟨s, rfl, tok, htokmem, hcont⟩⟩

/-- C7: Stage 3 returns `score = checksPassed / 2` over the credential check
and the data-pattern check, `confidence = score * 0.9`, status PASSED iff
both checks pass, WARNING when not all pass but `score >= 0.5`, else FAILED;
the pattern check passes iff `validItems / totalItems >= 0.9`, and a record
counts invalid exactly when one of its string values contains, lower-cased,
one of the placeholder tokens. -/
theorem C7_stage3_output (gk : Bool) (now : Nat) (data : Value) :
    (ExternalVerifier.validate gk now data).score =
      (((if gk then 1 else 0) + (if stage3PatternsPass data then 1 else 0) : ℕ) : ℚ) / 2 ∧
    (ExternalVerifier.validate gk now data).confidence =
      (ExternalVerifier.validate gk now data).score * 0.9 ∧
    ((ExternalVerifier.validate gk now data).status = ValidationStatus.passed ↔
      (gk = true ∧ stage3PatternsPass data = true)) ∧
    ((ExternalVerifier.validate gk now data).status = ValidationStatus.warning ↔
      (¬(gk = true ∧ stage3PatternsPass data = true) ∧
        (ExternalVerifier.validate gk now data).score ≥ 0.5)) ∧
    ((ExternalVerifier.validate gk now data).status = ValidationStatus.failed ↔
      (¬(gk = true ∧ stage3PatternsPass data = true) ∧
        (ExternalVerifier.validate gk now data).score < 0.5)) ∧
    (stage3PatternsPass data = true ↔
      ((toItems data).countP reasonableItem : ℚ) / ((toItems data).length : ℚ) ≥ 0.9) ∧
    ∀ fs, (reasonableItem (Value.dict fs) = false ↔
      ∃ k s, (k, Value.str s) ∈ fs ∧
        ∃ tok ∈ placeholderTokens, strContains s.toLower tok = true) := by
  have hle0 : ¬((0.5 : ℚ) ≤ 0) := by norm_num
  have hle2 : (0.5 : ℚ) ≤ 2⁻¹ := by norm_num
  have hle1 : (0.5 : ℚ) ≤ 1 := by norm_num
  have hlt0 : (0 : ℚ) < 0.5 := by norm_num
  have hlt2 : ¬((2⁻¹ : ℚ) < 0.5) := by norm_num
  have hlt1 : ¬((1 : ℚ) < 0.5) := by norm_num
  refine ⟨?_, ?_, ?_, ?_, ?_, stage3PatternsPass_iff data,
    fun fs => reasonableItem_dict_false_iff fs⟩
  · simp only [ExternalVerifier.validate]
    cases hgk : gk <;> cases hpp : stage3PatternsPass data <;>
      simp [List.countP_cons, List.countP_nil, hgk, hpp]
  · simp only [ExternalVerifier.validate]
  · simp only [ExternalVerifier.validate]
    cases hgk : gk <;> cases hpp : stage3PatternsPass data <;>
      simp [List.countP_cons, List.countP_nil, hgk, hpp, hle0, hle2, hle1, hlt0, hlt2, hlt1]
  · simp only [ExternalVerifier.validate]
    cases hgk : gk <;> cases hpp : stage3PatternsPass data <;>
      simp [List.countP_cons, List.countP_nil, hgk, hpp, hle0, hle2, hle1, hlt0, hlt2, hlt1]
  · simp only [ExternalVerifier.validate]
    cases hgk : gk <;> cases hpp : stage3PatternsPass data <;>
      simp [List.countP_cons, List.countP_nil, hgk, hpp, hle0, hle2, hle1, hlt0, hlt2, hlt1]

theorem validate_batch_ok (cfg : ComprehensiveValidator) (now : Nat) :
    ∀ (inputs : List Value) (rs : List TripleValidationReport),
      cfg.validate_batch now inputs = Except.ok rs →
      rs.length = inputs.length ∧
      ∀ i (hi : i < inputs.length) (hr : i < rs.length),
        cfg.validate now (inputs.get ⟨i, hi⟩) = Except.ok (rs.get ⟨i, hr⟩)
  | [], rs, h => by
      simp only [ComprehensiveValidator.validate_batch] at h
      cases h
      exact ⟨rfl, fun i hi hr => absurd hi (by simp)⟩
  | x :: xs, rs, h => by
      simp only [ComprehensiveValidator.validate_batch] at h
      cases hx : cfg.validate now x with
      | error e => rw [hx] at h; cases h
      | ok r =>
          rw [hx] at h
          cases hxs : ComprehensiveValidator.validate_batch cfg now xs with
          | error e => rw [hxs] at h; cases h
          | ok rs' =>
              rw [hxs] at h
              cases h
              obtain ⟨hlen, hidx⟩ := validate_batch_ok cfg now xs rs' hxs
              refine ⟨by simp [hlen], ?_⟩
              intro i hi hr
              cases i with
              | zero => simpa using hx
              | succ n =>
                  simpa using hidx n (by simpa using hi) (by simpa using hr)

/-- C8: whenever the batch entry point returns a summary for N input records,
the summary's report list has length N and its i-th report is exactly the
report `validate` produces for the i-th input (the sequential model of
`asyncio.gather`, which delivers results in input order regardless of
completion order). -/
theorem C8_batch_order (gk : Bool) (now : Nat) (inputs : List Value) (s : BatchSummary)
    (h : validate_all_intelligence gk now inputs = Except.ok s) :
    s.reports.length = inputs.length ∧
    ∀ i (hi : i < inputs.length) (hr : i < s.reports.length),
      ComprehensiveValidator.validate
        { level := .strict, data_type := "lead", geminiKeyPresent := gk }
        now (inputs.get ⟨i, hi⟩) = Except.ok (s.reports.get ⟨i, hr⟩) := by
  simp only [validate_all_intelligence] at h
  cases hb : ComprehensiveValidator.validate_batch
      { level := .strict, data_type := "lead", geminiKeyPresent := gk } now inputs with
  | error e => rw [hb] at h; cases h
  | ok reports =>
      rw [hb] at h
      cases h
      simpa using validate_batch_ok _ now inputs reports hb

/-- Witness for C8 at the concrete two-record batch. -/
theorem C8_witness :
    validate_all_intelligence true 0 batchInputs = Except.ok batchSummaryAt0 ∧
    (batchSummaryAt0.reports.length = batchInputs.length ∧
     ∀ i (hi : i < batchInputs.length) (hr : i < batchSummaryAt0.reports.length),
       ComprehensiveValidator.validate
         { level := .strict, data_type := "lead", geminiKeyPresent := true }
         0 (batchInputs.get ⟨i, hi⟩) = Except.ok (batchSummaryAt0.reports.get ⟨i, hr⟩)) :=
  ⟨rfl, C8_batch_order true 0 batchInputs batchSummaryAt0 rfl⟩

theorem validate_now_invariant (cfg : ComprehensiveValidator) (n1 n2 : Nat) (data : Value) :
    (cfg.validate n1 data).map TripleValidationReport.overall_score =
      (cfg.validate n2 data).map TripleValidationReport.overall_score ∧
    (cfg.validate n1 data).map TripleValidationReport.overall_confidence =
      (cfg.validate n2 data).map TripleValidationReport.overall_confidence := by
  cases h : crossRefCounts (toItems data) with
  | error e =>
      simp [ComprehensiveValidator.validate, CrossReferenceValidator.validate, h, Except.map]
  | ok c =>
      refine ⟨?_, ?_⟩ <;>
        simp only [ComprehensiveValidator.validate, CrossReferenceValidator.validate, h,
          Except.map] <;> rfl

/-- C9: validating the same record twice with the same configuration (same
level, data type and credential environment) yields reports with identical
overall score and overall confidence, whatever the two clock readings (which
only enter the validation id and the timestamps). -/
theorem C9_idempotent_scores (cfg : ComprehensiveValidator) (n1 n2 : Nat) (data : Value)
    (r1 r2 : TripleValidationReport)
    (h1 : cfg.validate n1 data = Except.ok r1) (h2 : cfg.validate n2 data = Except.ok r2) :
    r1.overall_score = r2.overall_score ∧ r1.overall_confidence = r2.overall_confidence := by
  obtain ⟨hs, hc⟩ := validate_now_invariant cfg n1 n2 data
  rw [h1, h2] at hs hc
  simp only [Except.map] at hs hc
  exact ⟨Except.ok.inj hs, Except.ok.inj hc⟩

/-- Witness for C9: the sample lead validated at times 0 and 1. -/
theorem C9_witness :
    strictLeadValidator.validate 0 sampleLead = Except.ok sampleReportAt0 ∧
    strictLeadValidator.validate 1 sampleLead = Except.ok sampleReportAt1 ∧
    (sampleReportAt0.overall_score = sampleReportAt1.overall_score ∧
     sampleReportAt0.overall_confidence = sampleReportAt1.overall_confidence) :=
  ⟨rfl, rfl, C9_idempotent_scores strictLeadValidator 0 1 sampleLead _ _ rfl rfl⟩

/-- C10: any dataType outside the registry silently falls back to the 'lead'
schema (required fields id, source_url, scraped_at): Stage 1 produces the
same score, errors and status as for dataType 'lead'. -/
theorem C10_unknown_type_lead_schema (dt : String)
    (h1 : dt ≠ "lead") (h2 : dt ≠ "property") (h3 : dt ≠ "intelligence")
    (h4 : dt ≠ "repository") :
    schemaFor dt = leadSchema ∧
    leadSchema.required = ["id", "source_url", "scraped_at"] ∧
    ∀ (now : Nat) (data : Value),
      (SchemaValidator.validate dt now data).score =
        (SchemaValidator.validate "lead" now data).score ∧
      (SchemaValidator.validate dt now data).errors =
        (SchemaValidator.validate "lead" now data).errors ∧
      (SchemaValidator.validate dt now data).status =
        (SchemaValidator.validate "lead" now data).status := by
  have hs : schemaFor dt = leadSchema := by
    simp only [schemaFor, SCHEMAS, lookupSchema]
    rw [if_neg (fun hh => h1 hh.symm), if_neg (fun hh => h2 hh.symm),
        if_neg (fun hh => h3 hh.symm), if_neg (fun hh => h4 hh.symm)]
    rfl
  refine ⟨hs, rfl, fun now data => ⟨?_, ?_, ?_⟩⟩ <;>
    simp only [SchemaValidator.validate, hs] <;> rfl

/-- Witness for C10 at the concrete unknown dataType `"unknown"`. -/
theorem C10_witness :
    schemaFor "unknown" = leadSchema ∧
    leadSchema.required = ["id", "source_url", "scraped_at"] ∧
    ∀ (now : Nat) (data : Value),
      (SchemaValidator.validate "unknown" now data).score =
        (SchemaValidator.validate "lead" now data).score ∧
      (SchemaValidator.validate "unknown" now data).errors =
        (SchemaValidator.validate "lead" now data).errors ∧
      (SchemaValidator.validate "unknown" now data).status =
        (SchemaValidator.validate "lead" now data).status :=
  C10_unknown_type_lead_schema "unknown" (by decide) (by decide) (by decide) (by decide)
